import Mathlib

/-!
Verification of the multi-source aggregation and fallback engine of the
Malthus.ai backend (an Express server in `src/server.js` plus Vercel
serverless handlers in `src/api/analyze.js`, `src/api/simple.js` and the
unnamed serverless handler `src/unnamed/part_001`).

The JavaScript code is shallowly embedded: upstream HTTP calls are
abstracted as already-settled outcomes passed in as arguments
(`SettledResult` mirrors the records produced by `Promise.allSettled`,
`Except` mirrors a call that either produced a parsed payload or threw),
JS numbers are modelled as rationals, JS `undefined`/`null`/`NaN` as
`Option.none`, and JS strings as Lean strings with character-wise
lower/upper casing.
-/

namespace Malthus

/-- Character-wise lowercasing, modelling `String.prototype.toLowerCase` on
the ASCII data this service handles. -/
def lowerStr (s : String) : String :=
  String.mk (s.toList.map Char.toLower)

/-- Character-wise uppercasing, modelling `String.prototype.toUpperCase`. -/
def upperStr (s : String) : String :=
  String.mk (s.toList.map Char.toUpper)

/-- Does `hay` start with `pat`? Helper for the substring test. -/
def startsWithChars : List Char → List Char → Bool
  | _, [] => true
  | [], _ :: _ => false
  | h :: hs, p :: ps => h = p && startsWithChars hs ps

/-- Does `pat` occur contiguously in `hay`? Helper for the substring test. -/
def containsChars : List Char → List Char → Bool
  | [], pat => pat.isEmpty
  | h :: hs, pat => startsWithChars (h :: hs) pat || containsChars hs pat

/-- Models `String.prototype.includes`: `pat` occurs contiguously in `hay`. -/
def strIncludes (hay pat : String) : Bool :=
  containsChars hay.toList pat.toList

/-- An article record as built by the news adapters in `src/server.js`.
Fields never read by the aggregation logic (`url`, `category`,
`fullArticle`) are omitted from the embedding.  `publishedAt` holds the
epoch value of the parsed publication date, and `sourceTier` is `none`
when the JS object carries no such key (the mock article). -/
structure Article where
  headline : String
  summary : Option String
  source : String
  sourceTier : Option String
  publishedAt : Int
  sentiment : String
  impact : String
  relevanceScore : Int
deriving DecidableEq, Repr

/-- The deduplication key of `removeDuplicateArticles` in `src/server.js`:
`article.headline.toLowerCase().substring(0, 50)`. -/
def headlineKey (headline : String) : String :=
  String.mk ((lowerStr headline).toList.take 50)

/-- Recursion of `removeDuplicateArticles`: the JS `filter` walks the list
front to back keeping an article only when its key is not yet in the
mutable `seen` set. -/
def removeDupGo : List Article → List String → List Article
  | [], _ => []
  | a :: rest, seen =>
    let key := headlineKey a.headline
    if key ∈ seen then removeDupGo rest seen
    else a :: removeDupGo rest (key :: seen)

/-- `removeDuplicateArticles` from `src/server.js` (lines 644-654). -/
def removeDuplicateArticles (articles : List Article) : List Article :=
  removeDupGo articles []

/-- The tier weight table of `sortArticlesByRelevance`:
`{ tier1: 3, tier2: 2, tier3: 1 }` with `|| 1` for anything else. -/
def tierWeight (sourceTier : Option String) : Int :=
  match sourceTier with
  | some "tier1" => 3
  | some "tier2" => 2
  | some "tier3" => 1
  | _ => 1

/-- The comparator passed to `articles.sort` in `sortArticlesByRelevance`
(`src/server.js` lines 656-672): descending relevance score, then
descending tier weight, then descending publication date. -/
def compareArticles (a b : Article) : Int :=
  if b.relevanceScore ≠ a.relevanceScore then b.relevanceScore - a.relevanceScore
  else
    let aTierWeight := tierWeight a.sourceTier
    let bTierWeight := tierWeight b.sourceTier
    if bTierWeight ≠ aTierWeight then bTierWeight - aTierWeight
    else b.publishedAt - a.publishedAt

/-- `a` may stay in front of `b` under the comparator. -/
def precedes (a b : Article) : Prop :=
  compareArticles a b ≤ 0

instance : DecidableRel precedes := fun a b =>
  inferInstanceAs (Decidable (compareArticles a b ≤ 0))

/-- `sortArticlesByRelevance` from `src/server.js`: `Array.prototype.sort`
with a consistent comparator, embedded as a comparator-respecting sort.
The `symbol` parameter of the JS function is unused by its body and kept
for fidelity. -/
def sortArticlesByRelevance (articles : List Article) (symbol : String) : List Article :=
  let _ := symbol
  List.insertionSort precedes articles

/-- The fixed financial keyword list of `calculateRelevanceScore`. -/
def financialKeywords : List String :=
  ["earnings", "revenue", "profit", "loss", "guidance", "outlook", "forecast"]

/-- The fixed high-impact word list of `calculateRelevanceScore`. -/
def highImpactWords : List String :=
  ["ceo", "acquisition", "merger", "partnership", "lawsuit"]

/-- `calculateRelevanceScore` from `src/server.js` (lines 674-692):
additive integer score over the lowercased `headline + ' ' + (summary || '')`. -/
def calculateRelevanceScore (headline : String) (summary : Option String) (symbol : String) : Int :=
  let text := lowerStr (headline ++ " " ++ summary.getD "")
  let sym := lowerStr symbol
  let score : Int := if strIncludes text sym then 10 else 0
  let score := financialKeywords.foldl (fun s k => if strIncludes text k then s + 5 else s) score
  let score := highImpactWords.foldl (fun s w => if strIncludes text w then s + 3 else s) score
  score

/-- The sentiment summary built by `calculateSentimentScore`; the JS
response nests the three counters under a `distribution` key. -/
structure SentimentSummary where
  overall : String
  score : ℚ
  positive : Nat
  negative : Nat
  neutral : Nat
  articles : List Article
deriving DecidableEq, Repr

/-- Models `parseFloat(x.toFixed(1))`: round to one decimal place.
ES2023 `toFixed` picks the integer `n` minimising `|n / 10 - x|`, taking
the larger `n` on ties, which is the floor of `x * 10 + 1/2`. -/
def toFixed1 (q : ℚ) : ℚ :=
  ((Rat.floor (q * 10 + 1/2) : ℤ) : ℚ) / 10

/-- The `forEach`/`switch` counting loop of `calculateSentimentScore`:
positive, negative, and default-neutral counters. -/
def countSentiments (articles : List Article) : Nat × Nat × Nat :=
  articles.foldl
    (fun acc article =>
      if article.sentiment = "positive" then (acc.1 + 1, acc.2.1, acc.2.2)
      else if article.sentiment = "negative" then (acc.1, acc.2.1 + 1, acc.2.2)
      else (acc.1, acc.2.1, acc.2.2 + 1))
    (0, 0, 0)

/-- `calculateSentimentScore` from `src/server.js` (lines 1053-1077). -/
def calculateSentimentScore (articles : List Article) : SentimentSummary :=
  let counts := countSentiments articles
  let positive := counts.1
  let negative := counts.2.1
  let neutral := counts.2.2
  let total := articles.length
  let score : ℚ := if 0 < total then (((positive : ℚ) - (negative : ℚ)) / (total : ℚ)) * 100 else 0
  let overall := if score > 20 then "positive" else if score < -20 then "negative" else "neutral"
  { overall := overall
    score := toFixed1 score
    positive := positive
    negative := negative
    neutral := neutral
    articles := articles }

/-- One settled outcome of `Promise.allSettled`: either fulfilled with a
value or rejected with a reason. -/
inductive SettledResult (α : Type) where
  | fulfilled (value : α)
  | rejected (reason : String)
deriving DecidableEq, Repr

/-- `getMockNews` from `src/server.js` (lines 1039-1051).  `now` stands for
`new Date()` at response time.  The JS object carries no `sourceTier`,
`relevanceScore` or `url` key; the embedding records the first as `none`
and the second as `0`, and neither is ever read on this code path. -/
def getMockNews (symbol : String) (now : Int) : List Article :=
  [{ headline := symbol ++ " Market Analysis Update"
     summary := some ("Latest analysis shows " ++ symbol ++ " maintaining steady performance in current market conditions.")
     source := "Financial Analysis"
     sourceTier := none
     publishedAt := now
     sentiment := "neutral"
     impact := "medium"
     relevanceScore := 0 }]

/-- The collection loop of `getComprehensiveNews`: concatenate the value of
every fulfilled adapter outcome (a fulfilled adapter always yields an
array, which is truthy in JS even when empty); rejected outcomes
contribute nothing. -/
def collectFulfilled (newsSources : List (SettledResult (List Article))) : List Article :=
  newsSources.foldl
    (fun allArticles result =>
      match result with
      | .fulfilled value => allArticles ++ value
      | .rejected _ => allArticles)
    []

/-- The body of the `try` block of `getComprehensiveNews`
(`src/server.js` lines 63-105): collect the settled adapter results,
deduplicate, rank, and truncate to 25. -/
def getComprehensiveNewsCore (symbol : String) (newsSources : List (SettledResult (List Article))) : List Article :=
  let allArticles := collectFulfilled newsSources
  let uniqueArticles := removeDuplicateArticles allArticles
  let sortedArticles := sortArticlesByRelevance uniqueArticles symbol
  sortedArticles.take 25

/-- `getComprehensiveNews` with its surrounding `try`/`catch`: an
`Except.error` input models any exception raised inside the `try` block,
which the `catch` converts into the mock news list. -/
def getComprehensiveNews (symbol : String) (now : Int)
    (attempt : Except String (List (SettledResult (List Article)))) : List Article :=
  match attempt with
  | .ok newsSources => getComprehensiveNewsCore symbol newsSources
  | .error _ => getMockNews symbol now

/-- The three earnings providers of `getQuarterlyEarnings`. -/
inductive EarningsProvider where
  | fmp
  | alphaVantage
  | polygon
deriving DecidableEq, Repr

/-- An earnings adapter result, reduced to the fields the provider chain
inspects: the `success` flag and the `source` label each adapter stamps on
its payload (`"FMP"`, `"Alpha Vantage"`, `"Polygon"`, `"Estimated"`).
The numeric payload fields are never read by the chain itself. -/
structure EarningsResult where
  success : Bool
  source : Option String := none
deriving DecidableEq, Repr

/-- `generateMockEarnings` from `src/server.js` (lines 753-779), reduced to
the fields above; its numeric fields are `Math.random()` filler. -/
def generateMockEarnings : EarningsResult :=
  { success := true, source := some "Estimated" }

/-- The fixed order in which `getQuarterlyEarnings` lists its providers in
the array literal passed to `Promise.allSettled`. -/
def earningsProviderOrder : List EarningsProvider :=
  [.fmp, .alphaVantage, .polygon]

/-- The `for` loop of `getQuarterlyEarnings`: return the first fulfilled
result whose `success` flag is set; fall through to the mock estimate. -/
def firstSuccessful : List (SettledResult EarningsResult) → EarningsResult
  | [] => generateMockEarnings
  | result :: rest =>
    match result with
    | .fulfilled value => if value.success then value else firstSuccessful rest
    | .rejected _ => firstSuccessful rest

/-- `getQuarterlyEarnings` from `src/server.js` (lines 291-315).  The array
literal `[this.getFMPEarnings(...), this.getAlphaVantageEarnings(...),
this.getPolygonEarnings(...)]` invokes every provider before
`Promise.allSettled` is awaited, so the first component records the
providers invoked (always all three, in order) and the second the selected
result. -/
def getQuarterlyEarnings (fetch : EarningsProvider → SettledResult EarningsResult) :
    List EarningsProvider × EarningsResult :=
  let invoked := earningsProviderOrder
  let earningsData := earningsProviderOrder.map fetch
  (invoked, firstSuccessful earningsData)

/-- JS `a || b` on an optional number: `a` when present and nonzero,
otherwise `b`. -/
def jsOrQ (a : Option ℚ) (b : ℚ) : ℚ :=
  match a with
  | some x => if x = 0 then b else x
  | none => b

/-- JS `a || b` on an optional string: `a` when present and nonempty,
otherwise `b`. -/
def jsOrS (a : Option String) (b : String) : String :=
  match a with
  | some x => if x = "" then b else x
  | none => b

/-- The `meta` object of a Yahoo Finance chart response, reduced to the
fields `getYahooFinanceData` reads.  `none` models an absent key. -/
structure YahooMeta where
  symbol : String
  longName : Option String
  shortName : Option String
  regularMarketPrice : Option ℚ
  previousClose : Option ℚ
  regularMarketVolume : Option ℚ
  marketCap : Option ℚ
  currency : Option String
  exchangeName : Option String
deriving DecidableEq, Repr

/-- The primary quote record returned by `getYahooFinanceData` and
`getCryptoData`.  `changePercent = none` models both an absent field and a
JS `NaN` produced by a zero-by-zero division. -/
structure Quote where
  success : Bool
  error : Option String := none
  symbol : Option String := none
  name : Option String := none
  currentPrice : ℚ := 0
  previousClose : Option ℚ := none
  change : ℚ := 0
  changePercent : Option ℚ := none
  volume : ℚ := 0
  marketCap : ℚ := 0
  currency : Option String := none
  exchange : Option String := none
deriving DecidableEq, Repr

/-- `getYahooFinanceData` from `src/server.js` (lines 781-827).  An
`Except.error` input models a failed or shape-invalid chart request (the
function catches and returns `success: false` with the message); an
`Except.ok` input is the `meta` object of a well-formed response. -/
def getYahooFinanceData (requestedSymbol : String) (resp : Except String YahooMeta) : Quote :=
  match resp with
  | .error e => { success := false, error := some e }
  | .ok meta =>
    let currentPrice := jsOrQ meta.regularMarketPrice (jsOrQ meta.previousClose 0)
    let previousClose := jsOrQ meta.previousClose currentPrice
    let change := currentPrice - previousClose
    let changePercent : Option ℚ :=
      if previousClose = 0 then none else some (change / previousClose * 100)
    { success := true
      symbol := some meta.symbol
      name := some (jsOrS meta.longName (jsOrS meta.shortName requestedSymbol))
      currentPrice := currentPrice
      previousClose := some previousClose
      change := change
      changePercent := changePercent
      volume := jsOrQ meta.regularMarketVolume 0
      marketCap := jsOrQ meta.marketCap 0
      currency := some (jsOrS meta.currency "USD")
      exchange := some (jsOrS meta.exchangeName "Unknown") }

/-- A CoinGecko simple-price entry, reduced to the fields
`getCryptoData` reads. -/
structure CoinGeckoPrice where
  usd : ℚ
  usd24hChange : Option ℚ
  usdMarketCap : Option ℚ
  usd24hVol : Option ℚ
deriving DecidableEq, Repr

/-- `getCryptoData` from `src/server.js` (lines 829-865).  An
`Except.error` input models a failed request or a response missing the
coin id (both reach the `catch` and return `success: false`). -/
def getCryptoData (symbol : String) (resp : Except String CoinGeckoPrice) : Quote :=
  match resp with
  | .error e => { success := false, error := some e }
  | .ok data =>
    { success := true
      name := some (upperStr symbol)
      symbol := some (upperStr symbol)
      currentPrice := data.usd
      change :=
        match data.usd24hChange with
        | some c => if c = 0 then 0 else data.usd * c / 100
        | none => 0
      changePercent := some (jsOrQ data.usd24hChange 0)
      marketCap := jsOrQ data.usdMarketCap 0
      volume := jsOrQ data.usd24hVol 0 }

/-- The curated crypto symbol list of `detectAssetType`. -/
def cryptoSymbols : List String :=
  ["BTC", "ETH", "ADA", "SOL", "MATIC", "AVAX", "DOT", "LINK", "UNI", "AAVE", "DOGE", "XRP", "LTC", "BCH"]

/-- The curated ETF symbol list of `detectAssetType`. -/
def etfSymbols : List String :=
  ["SPY", "QQQ", "VTI", "ARKK", "GLD", "TQQQ", "IWM", "EFA", "VEA"]

/-- `detectAssetType` from `src/server.js` (lines 43-51). -/
def detectAssetType (symbol : String) : String :=
  if upperStr symbol ∈ cryptoSymbols then "crypto"
  else if upperStr symbol ∈ etfSymbols then "etf"
  else if startsWithChars symbol.toList ("^".toList) then "index"
  else "stock"

/-- Models `parseFloat(x.toFixed(2))`: round to two decimal places. -/
def round2 (q : ℚ) : ℚ :=
  ((Rat.floor (q * 100 + 1/2) : ℤ) : ℚ) / 100

/-- The three response shapes of `POST /api/analyze` in `src/server.js`.
The 200 body is reduced to its price fields; the news, sentiment,
fundamentals and earnings parts are carried by the functions above and do
not affect the status or the error fields. -/
inductive AnalyzeResponse where
  | badRequest (error : String)
  | serverError (error : String) (details : Option String)
  | ok (symbol : String) (currentPrice : ℚ) (priceChange : ℚ) (priceChangePercent : Option ℚ) (assetType : String)
deriving DecidableEq, Repr

/-- The HTTP status attached to each response shape by the endpoint. -/
def httpStatus : AnalyzeResponse → Nat
  | .badRequest _ => 400
  | .serverError _ _ => 500
  | .ok _ _ _ _ _ => 200

/-- The primary-data flow of `app.post('/api/analyze')` in `src/server.js`
(lines 1100-1178): reject a missing/empty symbol, pick the primary fetch
by asset class, fail the whole request when the primary fetch reports
failure, and otherwise answer 200 with the fetched price data.  The two
`Quote` arguments are the (settled) results the two possible primary
fetches would deliver; only the one selected by `detectAssetType` is
read. -/
def analyzeEndpoint (bodySymbol : Option String) (cryptoFetch equityFetch : Quote) : AnalyzeResponse :=
  match bodySymbol with
  | none => .badRequest "Stock symbol is required"
  | some symbol =>
    if symbol = "" then .badRequest "Stock symbol is required"
    else
      let assetType := detectAssetType symbol
      let primaryData := if assetType = "crypto" then cryptoFetch else equityFetch
      if primaryData.success = false then
        .serverError
          ("Unable to fetch real market data for " ++ symbol ++ ". Please check the symbol and try again.")
          primaryData.error
      else
        .ok (upperStr symbol) (round2 primaryData.currentPrice) (round2 primaryData.change)
          (primaryData.changePercent.map round2) assetType

/-- The Yahoo `meta` fields read by the serverless handler in
`src/api/analyze.js`. -/
structure ApiMeta where
  regularMarketPrice : Option ℚ
  previousClose : Option ℚ
  longName : Option String
  trailingPE : Option ℚ
  marketCap : Option ℚ
  trailingEps : Option ℚ
deriving DecidableEq, Repr

/-- The `priceBlock` object assembled by `src/api/analyze.js`. -/
structure PriceBlock where
  symbol : String
  company : String
  currentPrice : Option ℚ
  previousClose : Option ℚ
  priceChangePercent : Option ℚ
  trailingPE : Option ℚ
  marketCap : Option ℚ
  trailingEps : Option ℚ
deriving DecidableEq, Repr

/-- Is an optional JS number truthy (present and nonzero)? -/
def truthyQ (a : Option ℚ) : Bool :=
  match a with
  | some x => x ≠ 0
  | none => false

/-- The real-data `priceBlock` of `src/api/analyze.js` (lines 39-53):
`??`-defaults keep absent fields `null`, and `priceChangePercent` is only
computed when both `previousClose` and `regularMarketPrice` are truthy. -/
def apiPriceBlock (symbol : String) (meta : ApiMeta) : PriceBlock :=
  { symbol := upperStr symbol
    company := jsOrS meta.longName (upperStr symbol ++ " Inc.")
    currentPrice := meta.regularMarketPrice
    previousClose := meta.previousClose
    priceChangePercent :=
      if truthyQ meta.previousClose && truthyQ meta.regularMarketPrice then
        some ((meta.regularMarketPrice.getD 0 - meta.previousClose.getD 0) / meta.previousClose.getD 0 * 100)
      else none
    trailingPE := meta.trailingPE
    marketCap := meta.marketCap
    trailingEps := meta.trailingEps }

/-- The hard-coded fallback `priceBlock` of `src/api/analyze.js`
(lines 56-67), used whenever the Yahoo request did not yield a `meta`
object. -/
def mockPriceBlock (symbol : String) : PriceBlock :=
  { symbol := upperStr symbol
    company := upperStr symbol ++ " Inc."
    currentPrice := some (150.25 : ℚ)
    previousClose := some (146.58 : ℚ)
    priceChangePercent := some (2.5 : ℚ)
    trailingPE := some (25.4 : ℚ)
    marketCap := some 2500000000000
    trailingEps := some (6.12 : ℚ) }

/-- A response of the serverless handler in `src/api/analyze.js`, reduced
to its status, its price block, its `source` key (`none`: the JSON object
has no such key) and its error fields.  The 200 body also carries
`assetType`, `sector`, a mock sentiment block and a timestamp, none of
which interact with the fields below. -/
structure ApiResponse where
  status : Nat
  priceBlock : Option PriceBlock
  source : Option String
  error : Option String
  details : Option String
deriving DecidableEq, Repr

/-- The POST flow of the serverless handler in `src/api/analyze.js`
(lines 16-87) for a nonempty symbol.  `Except.error` models the fetch
itself throwing (caught by the outer `catch`, status 500); `Except.ok
none` models a non-ok response or a response without `meta` (the mock
fallback); `Except.ok (some meta)` the real-data path.  Neither 200 path
puts a `source` key on the response object. -/
def apiAnalyzeHandler (symbol : String) (fetchOutcome : Except String (Option ApiMeta)) : ApiResponse :=
  match fetchOutcome with
  | .error e =>
    { status := 500, priceBlock := none, source := none
      error := some "Analysis failed", details := some e }
  | .ok metaOpt =>
    let priceBlock :=
      match metaOpt with
      | some meta => apiPriceBlock symbol meta
      | none => mockPriceBlock symbol
    { status := 200, priceBlock := some priceBlock, source := none
      error := none, details := none }

/-- The normalized record `fetchPriceData` of `src/unnamed/part_001`
produces (lines 101-140): every field is `|| 0` defaulted, and
`changePercent` is `0` (not absent) when `previousClose` is falsy. -/
structure Part001Price where
  regularMarketPrice : ℚ
  longName : String
  changePercent : ℚ
  trailingPE : ℚ
  marketCap : ℚ
  trailingEps : ℚ
deriving DecidableEq, Repr

/-- A response of the serverless handler in `src/unnamed/part_001`,
reduced to its status, price fields and `source` marker. -/
structure Part001Response where
  status : Nat
  symbol : String
  currentPrice : ℚ
  priceChangePercent : ℚ
  source : Option String
deriving DecidableEq, Repr

/-- The POST flow of the handler in `src/unnamed/part_001` (lines 27-94)
for a present symbol: `Promise.allSettled` over the price and news
fetches; a rejected price fetch selects the hard-coded mock response
marked `source: "mock-fallback"`, a fulfilled one the real-data response
marked `source: "yahoo-finance"`.  The news outcome only fills the
sentiment article list and is irrelevant to the fields modelled here. -/
def part001Handler (symbol : String) (priceOutcome : SettledResult Part001Price) : Part001Response :=
  match priceOutcome with
  | .rejected _ =>
    { status := 200
      symbol := upperStr symbol
      currentPrice := (150.25 : ℚ)
      priceChangePercent := (2.5 : ℚ)
      source := some "mock-fallback" }
  | .fulfilled price =>
    { status := 200
      symbol := upperStr symbol
      currentPrice := price.regularMarketPrice
      priceChangePercent := price.changePercent
      source := some "yahoo-finance" }

/-! ### Concrete sample inputs used by the counterexamples and witnesses -/

/-- A sample article with positive sentiment. -/
def posArticle : Article :=
  { headline := "Shares rally", summary := none, source := "Finnhub Financial News"
    sourceTier := some "tier1", publishedAt := 1700000000, sentiment := "positive"
    impact := "medium", relevanceScore := 5 }

/-- A sample article with negative sentiment. -/
def negArticle : Article :=
  { headline := "Shares slide", summary := none, source := "Finnhub Financial News"
    sourceTier := some "tier1", publishedAt := 1700000100, sentiment := "negative"
    impact := "medium", relevanceScore := 5 }

/-- A sample article with neutral sentiment. -/
def neutralArticle : Article :=
  { headline := "Markets mixed", summary := none, source := "Alpha Vantage (Reuters)"
    sourceTier := some "tier2", publishedAt := 1700000200, sentiment := "neutral"
    impact := "low", relevanceScore := 0 }

/-- Two articles whose headlines agree on their first 50 characters and
differ only afterwards. -/
def dupArticleA : Article :=
  { headline := "Apple reports record quarterly earnings beating all estimates on monday"
    summary := none, source := "Finnhub Financial News", sourceTier := some "tier1"
    publishedAt := 1700000000, sentiment := "positive", impact := "high", relevanceScore := 20 }

/-- Same first 50 headline characters as `dupArticleA`, from a different
provider. -/
def dupArticleB : Article :=
  { headline := "Apple reports record quarterly earnings beating all estimates on tuesday"
    summary := none, source := "Polygon (Benzinga)", sourceTier := some "tier1"
    publishedAt := 1700000500, sentiment := "positive", impact := "high", relevanceScore := 20 }

/-- The spec example distribution: positive, positive, negative, neutral. -/
def fourSentimentArticles : List Article :=
  [posArticle, posArticle, negArticle, neutralArticle]

/-- Seven articles of which exactly one is positive, exhibiting the
one-decimal rounding of the reported sentiment score. -/
def sevenSentimentArticles : List Article :=
  [posArticle, neutralArticle, neutralArticle, neutralArticle, neutralArticle, neutralArticle, neutralArticle]

/-- A Yahoo chart `meta` whose `previousClose` key is absent while a real
market price is present. -/
def metaNoPrevClose : YahooMeta :=
  { symbol := "AAPL", longName := some "Apple Inc.", shortName := none
    regularMarketPrice := some 100, previousClose := none
    regularMarketVolume := some 1000000, marketCap := some 3000000000000
    currency := some "USD", exchangeName := some "NMS" }

/-- A fully populated Yahoo chart `meta`. -/
def metaFull : YahooMeta :=
  { symbol := "AAPL", longName := some "Apple Inc.", shortName := none
    regularMarketPrice := some 60, previousClose := some 50
    regularMarketVolume := some 1000000, marketCap := some 3000000000000
    currency := some "USD", exchangeName := some "NMS" }

/-- A fully populated serverless-handler `meta`. -/
def apiMetaFull : ApiMeta :=
  { regularMarketPrice := some 60, previousClose := some 50
    longName := some "Apple Inc.", trailingPE := some 25
    marketCap := some 3000000000000, trailingEps := some 6 }

/-- An earnings fetch on which every provider reports success, each
labelled with its own source string. -/
def allSuccessEarningsFetch : EarningsProvider → SettledResult EarningsResult
  | .fmp => .fulfilled { success := true, source := some "FMP" }
  | .alphaVantage => .fulfilled { success := true, source := some "Alpha Vantage" }
  | .polygon => .fulfilled { success := true, source := some "Polygon" }

/-- An earnings fetch on which every provider fails. -/
def allFailEarningsFetch : EarningsProvider → SettledResult EarningsResult
  | .fmp => .fulfilled { success := false }
  | .alphaVantage => .rejected "timeout"
  | .polygon => .fulfilled { success := false }

/-- A failed primary quote, as produced by `getYahooFinanceData` when the
upstream call times out. -/
def failedQuote : Quote :=
  { success := false, error := some "timeout of 10000ms exceeded" }

/-- The exact (unrounded) sentiment score as the spec words it:
`(positiveCount - negativeCount) / totalArticles * 100`, `0` for an empty
list.  Spec-side definition, to be compared with the score field computed
by `calculateSentimentScore`. -/
def specSentimentScore (l : List Article) : ℚ :=
  if 0 < l.length then
    (((l.filter fun a => a.sentiment = "positive").length : ℚ)
        - ((l.filter fun a => a.sentiment = "negative").length : ℚ)) / (l.length : ℚ) * 100
  else 0

/-! ### Helper lemmas -/

theorem removeDupGo_sublist (l : List Article) (seen : List String) :
    (removeDupGo l seen).Sublist l := by
  induction l generalizing seen with
  | nil => simp [removeDupGo]
  | cons a rest ih =>
    simp only [removeDupGo]
    by_cases h : headlineKey a.headline ∈ seen
    · exact ((if_pos h : _) ▸ (ih seen).trans (List.sublist_cons_self a rest))
    · exact ((if_neg h : _) ▸ (ih (headlineKey a.headline :: seen)).cons₂ a)

theorem removeDupGo_keys_nodup (l : List Article) (seen : List String) :
    ((removeDupGo l seen).map (fun a => headlineKey a.headline)).Nodup ∧
      ∀ a ∈ removeDupGo l seen, headlineKey a.headline ∉ seen := by
  induction l generalizing seen with
  | nil => simp [removeDupGo]
  | cons a rest ih =>
    simp only [removeDupGo]
    by_cases h : headlineKey a.headline ∈ seen
    · rw [if_pos h]
      exact ih seen
    · rw [if_neg h]
      obtain ⟨ihn, ihs⟩ := ih (headlineKey a.headline :: seen)
      refine ⟨?_, ?_⟩
      · simp only [List.map_cons, List.nodup_cons]
        refine ⟨fun hmem => ?_, ihn⟩
        obtain ⟨b, hb, hkey⟩ := List.mem_map.mp hmem
        exact ihs b hb (hkey ▸ List.mem_cons_self _ _)
      · intro b hb
        rcases List.mem_cons.mp hb with rfl | hb2
        · exact h
        · exact fun hmem => ihs b hb2 (List.mem_cons_of_mem _ hmem)

theorem removeDupGo_keeps_first (l : List Article) (seen : List String) :
    ∀ a ∈ l, headlineKey a.headline ∉ seen →
      ∀ b, l.find? (fun x => headlineKey x.headline == headlineKey a.headline) = some b →
        b ∈ removeDupGo l seen := by
  induction l generalizing seen with
  | nil => intro a ha; exact absurd ha (List.not_mem_nil a)
  | cons hd rest ih =>
    intro a ha hnot b hfind
    by_cases hk : headlineKey hd.headline = headlineKey a.headline
    · rw [List.find?_cons_of_pos _ (by simp [hk])] at hfind
      cases hfind
      simp only [removeDupGo]
      rw [if_neg (fun hmem => hnot (hk ▸ hmem))]
      exact List.mem_cons_self _ _
    · rw [List.find?_cons_of_neg _ (by simp [hk])] at hfind
      have ha2 : a ∈ rest := by
        rcases List.mem_cons.mp ha with rfl | h2
        · exact absurd rfl hk
        · exact h2
      simp only [removeDupGo]
      by_cases hseen : headlineKey hd.headline ∈ seen
      · rw [if_pos hseen]
        exact ih seen a ha2 hnot b hfind
      · rw [if_neg hseen]
        refine List.mem_cons_of_mem _ (ih (headlineKey hd.headline :: seen) a ha2 ?_ b hfind)
        intro hmem
        rcases List.mem_cons.mp hmem with heq | h2
        · exact hk heq.symm
        · exact hnot h2

theorem precedes_iff (a b : Article) :
    precedes a b ↔
      b.relevanceScore < a.relevanceScore ∨
        (a.relevanceScore = b.relevanceScore ∧ tierWeight b.sourceTier < tierWeight a.sourceTier) ∨
          (a.relevanceScore = b.relevanceScore ∧ tierWeight a.sourceTier = tierWeight b.sourceTier ∧
            b.publishedAt ≤ a.publishedAt) := by
  unfold precedes compareArticles
  dsimp only
  by_cases h1 : b.relevanceScore ≠ a.relevanceScore
  · rw [if_pos h1]
    omega
  · rw [if_neg h1]
    by_cases h2 : tierWeight b.sourceTier ≠ tierWeight a.sourceTier
    · rw [if_pos h2]
      omega
    · rw [if_neg h2]
      omega

instance : IsTotal Article precedes :=
  ⟨fun a b => by simp only [precedes_iff]; omega⟩

instance : IsTrans Article precedes :=
  ⟨fun a b c => by simp only [precedes_iff]; omega⟩

theorem foldl_add_filter (c : Int) (p : String → Bool) (l : List String) (init : Int) :
    l.foldl (fun s k => if p k then s + c else s) init
      = init + c * (((l.filter p).length : Int)) := by
  induction l generalizing init with
  | nil => simp
  | cons h t ih =>
    by_cases hp : p h
    · simp only [List.foldl_cons, if_pos hp, ih, List.filter_cons, hp, if_true,
        List.length_cons]
      push_cast
      ring
    · simp only [List.foldl_cons, if_neg hp, ih, List.filter_cons, hp,
        Bool.false_eq_true, if_false]

theorem countSentiments_go (l : List Article) (acc : Nat × Nat × Nat) :
    l.foldl
      (fun acc article =>
        if article.sentiment = "positive" then (acc.1 + 1, acc.2.1, acc.2.2)
        else if article.sentiment = "negative" then (acc.1, acc.2.1 + 1, acc.2.2)
        else (acc.1, acc.2.1, acc.2.2 + 1))
      acc
      = (acc.1 + (l.filter fun a => a.sentiment = "positive").length,
         acc.2.1 + (l.filter fun a => a.sentiment = "negative").length,
         acc.2.2 + (l.filter fun a => a.sentiment ≠ "positive" ∧ a.sentiment ≠ "negative").length) := by
  induction l generalizing acc with
  | nil => simp
  | cons hd t ih =>
    simp only [List.foldl_cons, List.filter_cons]
    by_cases h1 : hd.sentiment = "positive"
    · rw [if_pos h1, ih]
      simp [h1]
      omega
    · by_cases h2 : hd.sentiment = "negative"
      · rw [if_neg h1, if_pos h2, ih]
        simp [h1, h2]
        omega
      · rw [if_neg h1, if_neg h2, ih]
        simp [h1, h2]
        omega

theorem countSentiments_eq (l : List Article) :
    countSentiments l
      = ((l.filter fun a => a.sentiment = "positive").length,
         (l.filter fun a => a.sentiment = "negative").length,
         (l.filter fun a => a.sentiment ≠ "positive" ∧ a.sentiment ≠ "negative").length) := by
  have h := countSentiments_go l (0, 0, 0)
  simpa [countSentiments] using h

theorem collectFulfilled_go (rs : List (SettledResult (List Article))) (acc : List Article) :
    rs.foldl
      (fun allArticles result =>
        match result with
        | .fulfilled value => allArticles ++ value
        | .rejected _ => allArticles)
      acc
      = acc ++ collectFulfilled rs := by
  induction rs generalizing acc with
  | nil => simp [collectFulfilled]
  | cons r rs ih =>
    cases r with
    | fulfilled v =>
      simp only [collectFulfilled, List.foldl_cons, List.nil_append]
      rw [ih, ih v]
      simp [List.append_assoc]
    | rejected e =>
      simp only [collectFulfilled, List.foldl_cons, List.nil_append]
      rw [ih]
      rfl

theorem collectFulfilled_cons_fulfilled (v : List Article) (rs : List (SettledResult (List Article))) :
    collectFulfilled (.fulfilled v :: rs) = v ++ collectFulfilled rs := by
  simp only [collectFulfilled, List.foldl_cons, List.nil_append]
  exact collectFulfilled_go rs v

theorem collectFulfilled_cons_rejected (e : String) (rs : List (SettledResult (List Article))) :
    collectFulfilled (.rejected e :: rs) = collectFulfilled rs := by
  simp [collectFulfilled]

theorem collectFulfilled_all_rejected (rs : List (SettledResult (List Article)))
    (h : ∀ r ∈ rs, ∃ e, r = SettledResult.rejected e) : collectFulfilled rs = [] := by
  induction rs with
  | nil => simp [collectFulfilled]
  | cons r rs ih =>
    obtain ⟨e, rfl⟩ := h r (List.mem_cons_self r rs)
    rw [collectFulfilled_cons_rejected]
    exact ih fun x hx => h x (List.mem_cons_of_mem _ hx)

theorem removeDuplicateArticles_ne_nil (a : Article) (rest : List Article) :
    removeDuplicateArticles (a :: rest) ≠ [] := by
  simp [removeDuplicateArticles, removeDupGo]

theorem firstSuccessful_eq_findSome (rs : List (SettledResult EarningsResult)) :
    firstSuccessful rs
      = (rs.findSome? fun r =>
          match r with
          | .fulfilled v => if v.success then some v else none
          | .rejected _ => none).getD generateMockEarnings := by
  induction rs with
  | nil => rfl
  | cons r rs ih =>
    cases r with
    | fulfilled v =>
      by_cases h : v.success
      · simp [firstSuccessful, List.findSome?_cons, h]
      · simp [firstSuccessful, List.findSome?_cons, h, ih]
    | rejected e => simp [firstSuccessful, List.findSome?_cons, ih]

theorem strToList_append (a b : String) : (a ++ b).toList = a.toList ++ b.toList := rfl

/-! ### Claim theorems -/

/-- C3 counterexample: `getQuarterlyEarnings` launches every provider
through the `Promise.allSettled` array literal, so even when FMP (the
first provider in the preference order) succeeds — and its result is the
one returned — Alpha Vantage and Polygon are still invoked, refuting the
claim that a success short-circuits the invocation of later providers. -/
theorem getQuarterlyEarnings_invokes_all_counterexample :
    (getQuarterlyEarnings allSuccessEarningsFetch).2
        = { success := true, source := some "FMP" } ∧
    EarningsProvider.alphaVantage ∈ (getQuarterlyEarnings allSuccessEarningsFetch).1 ∧
    EarningsProvider.polygon ∈ (getQuarterlyEarnings allSuccessEarningsFetch).1 := by
  decide

/-- C3 (amended): `getQuarterlyEarnings` always invokes all three
providers concurrently (FMP, Alpha Vantage, Polygon, via
`Promise.allSettled`), then scans the settled results in that fixed order
and returns the first fulfilled result reporting success, unmerged — in
particular an FMP success is returned as-is — falling back to the
mock estimate when no provider succeeds. -/
theorem getQuarterlyEarnings_spec (fetch : EarningsProvider → SettledResult EarningsResult) :
    (getQuarterlyEarnings fetch).1
        = [EarningsProvider.fmp, EarningsProvider.alphaVantage, EarningsProvider.polygon] ∧
    (getQuarterlyEarnings fetch).2
        = ([fetch .fmp, fetch .alphaVantage, fetch .polygon].findSome? fun r =>
            match r with
            | .fulfilled v => if v.success then some v else none
            | .rejected _ => none).getD generateMockEarnings ∧
    (∀ v, fetch EarningsProvider.fmp = SettledResult.fulfilled v → v.success = true →
      (getQuarterlyEarnings fetch).2 = v) := by
  refine ⟨rfl, ?_, ?_⟩
  · exact firstSuccessful_eq_findSome (earningsProviderOrder.map fetch)
  · intro v hv hs
    show firstSuccessful (earningsProviderOrder.map fetch) = v
    simp [earningsProviderOrder, firstSuccessful, hv, hs]

/-- C3 witness: the amended theorem instantiated on the all-success
fetch — the FMP result is selected and the provider order is the full
fixed list. -/
theorem getQuarterlyEarnings_spec_witness :
    (getQuarterlyEarnings allSuccessEarningsFetch).1
        = [EarningsProvider.fmp, EarningsProvider.alphaVantage, EarningsProvider.polygon] ∧
    (getQuarterlyEarnings allSuccessEarningsFetch).2 = { success := true, source := some "FMP" } := by
  obtain ⟨h1, _h2, h3⟩ := getQuarterlyEarnings_spec allSuccessEarningsFetch
  exact ⟨h1, h3 { success := true, source := some "FMP" } rfl rfl⟩

/-- C4: the news fan-out is settle-all — every rejected adapter outcome
contributes nothing without discarding the fulfilled one, so when exactly
one adapter (in any position) succeeds with a list of articles while all
others fail, `getComprehensiveNews` returns exactly those articles after
deduplication, ranking and truncation, and in particular a non-empty list
whenever the successful adapter delivered any article. -/
theorem getComprehensiveNews_single_success (symbol : String) (now : Int)
    (pre post : List (SettledResult (List Article))) (articles : List Article)
    (hpre : ∀ r ∈ pre, ∃ e, r = SettledResult.rejected e)
    (hpost : ∀ r ∈ post, ∃ e, r = SettledResult.rejected e) :
    getComprehensiveNews symbol now (Except.ok (pre ++ SettledResult.fulfilled articles :: post))
      = (sortArticlesByRelevance (removeDuplicateArticles articles) symbol).take 25 ∧
    (articles ≠ [] →
      getComprehensiveNews symbol now (Except.ok (pre ++ SettledResult.fulfilled articles :: post))
        ≠ []) := by
  show getComprehensiveNewsCore symbol (pre ++ SettledResult.fulfilled articles :: post)
      = (sortArticlesByRelevance (removeDuplicateArticles articles) symbol).take 25 ∧
    (articles ≠ [] →
      getComprehensiveNewsCore symbol (pre ++ SettledResult.fulfilled articles :: post) ≠ [])
  have hcollect : collectFulfilled (pre ++ SettledResult.fulfilled articles :: post) = articles := by
    induction pre with
    | nil =>
      rw [List.nil_append, collectFulfilled_cons_fulfilled,
        collectFulfilled_all_rejected post hpost, List.append_nil]
    | cons r pre ih =>
      obtain ⟨e, rfl⟩ := hpre r (List.mem_cons_self r pre)
      rw [List.cons_append, collectFulfilled_cons_rejected]
      exact ih fun x hx => hpre x (List.mem_cons_of_mem _ hx)
  have hmain : getComprehensiveNewsCore symbol (pre ++ SettledResult.fulfilled articles :: post)
      = (sortArticlesByRelevance (removeDuplicateArticles articles) symbol).take 25 := by
    simp [getComprehensiveNewsCore, hcollect]
  refine ⟨hmain, fun hne => ?_⟩
  rw [hmain]
  obtain ⟨a, rest, rfl⟩ := List.exists_cons_of_ne_nil hne
  have hu : removeDuplicateArticles (a :: rest) ≠ [] := removeDuplicateArticles_ne_nil a rest
  have hlen : 0 < (sortArticlesByRelevance (removeDuplicateArticles (a :: rest)) symbol).length := by
    have hperm : (sortArticlesByRelevance (removeDuplicateArticles (a :: rest)) symbol).Perm
        (removeDuplicateArticles (a :: rest)) :=
      List.perm_insertionSort precedes (removeDuplicateArticles (a :: rest))
    rw [hperm.length_eq]
    exact List.length_pos.mpr hu
  apply List.ne_nil_of_length_pos
  rw [List.length_take]
  omega

/-- C4 witness: one fulfilled adapter among three rejected ones delivers
its two articles through the pipeline. -/
theorem getComprehensiveNews_single_success_witness :
    getComprehensiveNews "AAPL" 1700000000 (Except.ok
        [SettledResult.rejected "newsapi down", SettledResult.fulfilled [posArticle, negArticle],
          SettledResult.rejected "alphavantage down", SettledResult.rejected "polygon down"])
      = (sortArticlesByRelevance (removeDuplicateArticles [posArticle, negArticle]) "AAPL").take 25 ∧
    getComprehensiveNews "AAPL" 1700000000 (Except.ok
        [SettledResult.rejected "newsapi down", SettledResult.fulfilled [posArticle, negArticle],
          SettledResult.rejected "alphavantage down", SettledResult.rejected "polygon down"])
      ≠ [] := by
  have h := getComprehensiveNews_single_success "AAPL" 1700000000
    [SettledResult.rejected "newsapi down"]
    [SettledResult.rejected "alphavantage down", SettledResult.rejected "polygon down"]
    [posArticle, negArticle]
    (fun r hr => ⟨"newsapi down", by rw [List.mem_singleton] at hr; exact hr⟩)
    (fun r hr => by
      rcases List.mem_cons.mp hr with rfl | hr2
      · exact ⟨"alphavantage down", rfl⟩
      · rw [List.mem_singleton] at hr2
        exact ⟨"polygon down", hr2⟩)
  exact ⟨h.1, h.2 (by decide)⟩

/-- C10: `getComprehensiveNews` never propagates an error — on every
input it returns an article list of at most 25 entries, and whenever the
aggregate attempt failed it degrades to the single mock placeholder
article (headline `<symbol> Market Analysis Update`, source `Financial
Analysis`, neutral sentiment) instead of throwing. -/
theorem getComprehensiveNews_total (symbol : String) (now : Int)
    (attempt : Except String (List (SettledResult (List Article)))) :
    (getComprehensiveNews symbol now attempt).length ≤ 25 ∧
    (∀ e, attempt = Except.error e →
      ∃ a, getComprehensiveNews symbol now attempt = [a] ∧
        a.headline = symbol ++ " Market Analysis Update" ∧
        a.source = "Financial Analysis" ∧ a.sentiment = "neutral") := by
  constructor
  · cases attempt with
    | ok sources =>
      simp only [getComprehensiveNews, getComprehensiveNewsCore]
      rw [List.length_take]
      omega
    | error e => simp [getComprehensiveNews, getMockNews]
  · intro e he
    subst he
    exact ⟨_, rfl, rfl, rfl, rfl⟩

/-- C10 witness: a failed aggregate attempt yields the single neutral
placeholder article. -/
theorem getComprehensiveNews_total_witness :
    (getComprehensiveNews "AAPL" 1700000000 (Except.error "aggregate failure")).length ≤ 25 ∧
    ∃ a, getComprehensiveNews "AAPL" 1700000000 (Except.error "aggregate failure") = [a] ∧
      a.headline = "AAPL" ++ " Market Analysis Update" ∧
      a.source = "Financial Analysis" ∧ a.sentiment = "neutral" := by
  obtain ⟨h1, h2⟩ := getComprehensiveNews_total "AAPL" 1700000000 (Except.error "aggregate failure")
  exact ⟨h1, h2 "aggregate failure" rfl⟩

/-- C5 counterexample: two articles whose headlines agree on their first 50
characters and differ only afterwards are NOT both kept —
`removeDuplicateArticles` collapses them to the first-seen one, so the
claim that such a pair survives deduplication is false on this concrete
input. -/
theorem removeDuplicateArticles_after50_collide :
    dupArticleA.headline ≠ dupArticleB.headline ∧
    (lowerStr dupArticleA.headline).toList.take 50 = (lowerStr dupArticleB.headline).toList.take 50 ∧
    removeDuplicateArticles [dupArticleA, dupArticleB] = [dupArticleA] ∧
    dupArticleB ∉ removeDuplicateArticles [dupArticleA, dupArticleB] := by
  decide

/-- C5 (amended): `removeDuplicateArticles` keeps a subsequence of its
input in which any two articles have distinct lowercased 50-character
headline prefixes, and for every input article the first-seen article
carrying its prefix key survives — so two articles agreeing on the first
50 lowercased characters collapse to the first-seen one (even across
providers, and even when the headlines differ only after character 50),
while articles with distinct keys are all kept. -/
theorem removeDuplicateArticles_spec (l : List Article) :
    (removeDuplicateArticles l).Sublist l ∧
    ((removeDuplicateArticles l).map (fun a => headlineKey a.headline)).Nodup ∧
    (∀ a ∈ l, ∀ b, l.find? (fun x => headlineKey x.headline == headlineKey a.headline) = some b →
      b ∈ removeDuplicateArticles l) := by
  refine ⟨removeDupGo_sublist l [], (removeDupGo_keys_nodup l []).1, ?_⟩
  intro a ha b hfind
  exact removeDupGo_keeps_first l [] a ha (List.not_mem_nil _) b hfind

/-- C5 witness: the duplicated pair instantiates the amended theorem; the
first-seen occurrence of the shared key is kept. -/
theorem removeDuplicateArticles_spec_witness :
    dupArticleA ∈ removeDuplicateArticles [dupArticleA, dupArticleB] :=
  (removeDuplicateArticles_spec [dupArticleA, dupArticleB]).2.2 dupArticleB (by decide)
    dupArticleA (by decide)

/-- C8 counterexample: the score field reported by
`calculateSentimentScore` is the formula value rounded to one decimal
(`toFixed(1)`), not the exact formula value: on seven articles with one
positive and none negative the exact value is 100/7 = 14.2857... while the
function reports 14.3. -/
theorem calculateSentimentScore_rounded_counterexample :
    (calculateSentimentScore sevenSentimentArticles).positive = 1 ∧
    (calculateSentimentScore sevenSentimentArticles).negative = 0 ∧
    sevenSentimentArticles.length = 7 ∧
    (calculateSentimentScore sevenSentimentArticles).score = 143 / 10 ∧
    (calculateSentimentScore sevenSentimentArticles).score ≠ (((1 : ℚ) - 0) / 7) * 100 := by
  have hc : countSentiments sevenSentimentArticles = (1, 0, 6) := by decide
  have hl : sevenSentimentArticles.length = 7 := by decide
  refine ⟨by decide, by decide, by decide, ?_, ?_⟩
  · norm_num [calculateSentimentScore, hc, hl, toFixed1, Rat.floor]
  · norm_num [calculateSentimentScore, hc, hl, toFixed1, Rat.floor]

/-- C8 (amended): `calculateSentimentScore` reports the
positive/negative/neutral distribution of the sentiment labels, a score
equal to `(positiveCount - negativeCount) / totalArticles * 100` rounded
to one decimal place (the overall label is bucketed from the unrounded
value at the plus/minus 20 thresholds), yields score 0 and label neutral
on the empty list, and on `[positive, positive, negative, neutral]` yields
distribution (2, 1, 1), score 25 and label positive. -/
theorem calculateSentimentScore_spec :
    (∀ l : List Article,
      (calculateSentimentScore l).positive = (l.filter fun a => a.sentiment = "positive").length ∧
      (calculateSentimentScore l).negative = (l.filter fun a => a.sentiment = "negative").length ∧
      (calculateSentimentScore l).neutral
        = (l.filter fun a => a.sentiment ≠ "positive" ∧ a.sentiment ≠ "negative").length ∧
      (calculateSentimentScore l).articles = l ∧
      (calculateSentimentScore l).score = toFixed1 (specSentimentScore l) ∧
      (calculateSentimentScore l).overall =
        (if 20 < specSentimentScore l then "positive"
         else if specSentimentScore l < -20 then "negative" else "neutral")) ∧
    ((calculateSentimentScore []).score = 0 ∧ (calculateSentimentScore []).overall = "neutral") ∧
    ((calculateSentimentScore fourSentimentArticles).positive = 2 ∧
      (calculateSentimentScore fourSentimentArticles).negative = 1 ∧
      (calculateSentimentScore fourSentimentArticles).neutral = 1 ∧
      (calculateSentimentScore fourSentimentArticles).score = 25 ∧
      (calculateSentimentScore fourSentimentArticles).overall = "positive") := by
  refine ⟨?_, ⟨?_, ?_⟩, ?_⟩
  · intro l
    simp [calculateSentimentScore, countSentiments_eq, specSentimentScore, gt_iff_lt]
  · norm_num [calculateSentimentScore, countSentiments, toFixed1, Rat.floor]
  · norm_num [calculateSentimentScore, countSentiments, toFixed1, Rat.floor]
  · have hc : countSentiments fourSentimentArticles = (2, 1, 1) := by decide
    have hl : fourSentimentArticles.length = 4 := by decide
    refine ⟨by decide, by decide, by decide, ?_, ?_⟩
    · norm_num [calculateSentimentScore, hc, hl, toFixed1, Rat.floor]
    · norm_num [calculateSentimentScore, hc, hl, toFixed1, Rat.floor]

/-- C6: the output of `sortArticlesByRelevance` is a permutation of its
input in which, for every earlier/later article pair, either the earlier
one has strictly higher relevance score, or scores tie and the earlier one
has strictly higher tier weight (tier1 = 3 > tier2 = 2 > tier3/unknown = 1),
or scores and tier weights tie and the earlier one has a publication
timestamp at least as recent. -/
theorem sortArticlesByRelevance_ordered (l : List Article) (symbol : String) :
    (sortArticlesByRelevance l symbol).Perm l ∧
    (sortArticlesByRelevance l symbol).Pairwise (fun a b =>
      b.relevanceScore < a.relevanceScore ∨
        (a.relevanceScore = b.relevanceScore ∧ tierWeight b.sourceTier < tierWeight a.sourceTier) ∨
          (a.relevanceScore = b.relevanceScore ∧ tierWeight a.sourceTier = tierWeight b.sourceTier ∧
            b.publishedAt ≤ a.publishedAt)) := by
  constructor
  · exact List.perm_insertionSort precedes l
  · exact List.Pairwise.imp (fun h => (precedes_iff _ _).mp h)
      (List.sorted_insertionSort precedes l)

/-- C7: `calculateRelevanceScore` is the additive integer score with +10
for a case-insensitive symbol hit in headline+summary, +5 per matched
keyword of the fixed financial set, +3 per matched high-impact term, with
no cap or normalization applied; the spec instance (symbol present, two
keywords, one high-impact term) scores 10 + 5 * 2 + 3 * 1 = 23. -/
theorem calculateRelevanceScore_spec :
    (∀ headline summary symbol,
      calculateRelevanceScore headline summary symbol =
        (if strIncludes (lowerStr (headline ++ " " ++ summary.getD "")) (lowerStr symbol) then 10 else 0)
          + 5 * ((financialKeywords.filter
              (fun k => strIncludes (lowerStr (headline ++ " " ++ summary.getD "")) k)).length : Int)
          + 3 * ((highImpactWords.filter
              (fun w => strIncludes (lowerStr (headline ++ " " ++ summary.getD "")) w)).length : Int)) ∧
    calculateRelevanceScore "AAPL earnings revenue rise after ceo comments" none "AAPL" = 23 := by
  constructor
  · intro headline summary symbol
    simp only [calculateRelevanceScore]
    rw [foldl_add_filter, foldl_add_filter]
  · decide

/-- C9 counterexample: when the provider `previousClose` is absent,
`getYahooFinanceData` does not treat `changePercent` as missing — it
substitutes the current price for the previous close and reports
`changePercent = 0` (a number), refuting the claim for this input. -/
theorem yahoo_changePercent_counterexample :
    metaNoPrevClose.previousClose = none ∧
    (getYahooFinanceData "AAPL" (Except.ok metaNoPrevClose)).changePercent = some 0 ∧
    (getYahooFinanceData "AAPL" (Except.ok metaNoPrevClose)).change = 0 := by
  refine ⟨rfl, ?_, ?_⟩
  · norm_num [getYahooFinanceData, metaNoPrevClose, jsOrQ]
  · norm_num [getYahooFinanceData, metaNoPrevClose, jsOrQ]

/-- C9 (amended): in every quote `getYahooFinanceData` builds,
`change = currentPrice - previousClose` and, whenever the (returned)
previous close is positive, `changePercent = change / previousClose * 100`;
a zero/absent provider `previousClose` is replaced by the current price,
so `change` is 0 and `changePercent` is the number 0 (or the NaN of a
zero-by-zero division when the current price is 0 as well) rather than a
missing value; the serverless handler of `src/api/analyze.js`, by
contrast, computes `priceChangePercent` only when both price fields are
present and nonzero and reports `null` otherwise. -/
theorem quote_change_invariant :
    (∀ sym meta pc, (getYahooFinanceData sym (Except.ok meta)).previousClose = some pc →
      (getYahooFinanceData sym (Except.ok meta)).change
          = (getYahooFinanceData sym (Except.ok meta)).currentPrice - pc ∧
      (0 < pc →
        (getYahooFinanceData sym (Except.ok meta)).changePercent
          = some ((getYahooFinanceData sym (Except.ok meta)).change / pc * 100))) ∧
    (∀ sym meta, meta.previousClose = none ∨ meta.previousClose = some 0 →
      (getYahooFinanceData sym (Except.ok meta)).change = 0 ∧
      ((getYahooFinanceData sym (Except.ok meta)).currentPrice ≠ 0 →
        (getYahooFinanceData sym (Except.ok meta)).changePercent = some 0) ∧
      ((getYahooFinanceData sym (Except.ok meta)).currentPrice = 0 →
        (getYahooFinanceData sym (Except.ok meta)).changePercent = none)) ∧
    (∀ sym meta pc p, meta.previousClose = some pc → pc ≠ 0 →
      meta.regularMarketPrice = some p → p ≠ 0 →
      (apiPriceBlock sym meta).priceChangePercent = some ((p - pc) / pc * 100)) ∧
    (∀ sym meta, meta.previousClose = none ∨ meta.previousClose = some 0 →
      (apiPriceBlock sym meta).priceChangePercent = none) := by
  refine ⟨?_, ?_, ?_, ?_⟩
  · intro sym meta pc hpc
    simp only [getYahooFinanceData, Option.some.injEq] at hpc
    subst hpc
    refine ⟨rfl, fun hpos => ?_⟩
    simp only [getYahooFinanceData]
    rw [if_neg hpos.ne']
  · intro sym meta h
    have hprev : jsOrQ meta.previousClose
        (jsOrQ meta.regularMarketPrice (jsOrQ meta.previousClose 0))
        = jsOrQ meta.regularMarketPrice (jsOrQ meta.previousClose 0) := by
      rcases h with h | h <;> simp [jsOrQ, h]
    refine ⟨?_, fun hne => ?_, fun heq => ?_⟩
    · simp only [getYahooFinanceData, hprev]
      exact sub_self _
    · simp only [getYahooFinanceData, hprev]
      rw [if_neg (by simpa [getYahooFinanceData] using hne)]
      simp
    · simp only [getYahooFinanceData, hprev]
      rw [if_pos (by simpa [getYahooFinanceData] using heq)]
  · intro sym meta pc p hpc hpcne hp hpne
    simp [apiPriceBlock, truthyQ, hpc, hp, hpcne, hpne]
  · intro sym meta h
    rcases h with h | h <;> simp [apiPriceBlock, truthyQ, h]

/-- C9 witness: the invariant instantiated on a fully populated meta
(previous close 50, price 60) and on a meta with an absent previous
close. -/
theorem quote_change_invariant_witness :
    ((getYahooFinanceData "AAPL" (Except.ok metaFull)).change
        = (getYahooFinanceData "AAPL" (Except.ok metaFull)).currentPrice - 50 ∧
      (getYahooFinanceData "AAPL" (Except.ok metaFull)).changePercent
        = some ((getYahooFinanceData "AAPL" (Except.ok metaFull)).change / 50 * 100)) ∧
    (apiPriceBlock "AAPL" apiMetaFull).priceChangePercent = some (((60 : ℚ) - 50) / 50 * 100) ∧
    (apiPriceBlock "AAPL" { apiMetaFull with previousClose := none }).priceChangePercent = none := by
  obtain ⟨h1, _h2, h3, h4⟩ := quote_change_invariant
  obtain ⟨ha, hb⟩ := h1 "AAPL" metaFull 50 (by decide)
  exact ⟨⟨ha, hb (by decide)⟩, h3 "AAPL" apiMetaFull 50 60 rfl (by decide) rfl (by decide),
    h4 "AAPL" { apiMetaFull with previousClose := none } (Or.inl rfl)⟩

/-- C1: whenever the analyze body carries a nonempty symbol and the
primary data fetch selected by the asset class reports failure, the
endpoint answers with the HTTP 500 server-error response whose message
contains the requested symbol and whose details field carries the
underlying cause, and it never answers 200 in this situation. -/
theorem analyzeEndpoint_primary_failure (symbol : String) (cryptoFetch equityFetch : Quote)
    (hsym : symbol ≠ "")
    (hfail : (if detectAssetType symbol = "crypto" then cryptoFetch else equityFetch).success = false) :
    analyzeEndpoint (some symbol) cryptoFetch equityFetch
      = AnalyzeResponse.serverError
          ("Unable to fetch real market data for " ++ symbol ++ ". Please check the symbol and try again.")
          (if detectAssetType symbol = "crypto" then cryptoFetch else equityFetch).error ∧
    httpStatus (analyzeEndpoint (some symbol) cryptoFetch equityFetch) = 500 ∧
    symbol.toList <:+:
      ("Unable to fetch real market data for " ++ symbol ++ ". Please check the symbol and try again.").toList ∧
    (∀ s cp pc pcp a2,
      analyzeEndpoint (some symbol) cryptoFetch equityFetch ≠ AnalyzeResponse.ok s cp pc pcp a2) := by
  have hresp : analyzeEndpoint (some symbol) cryptoFetch equityFetch
      = AnalyzeResponse.serverError
          ("Unable to fetch real market data for " ++ symbol ++ ". Please check the symbol and try again.")
          (if detectAssetType symbol = "crypto" then cryptoFetch else equityFetch).error := by
    simp only [analyzeEndpoint]
    rw [if_neg hsym, if_pos hfail]
  refine ⟨hresp, by rw [hresp]; rfl, ?_, ?_⟩
  · refine ⟨("Unable to fetch real market data for ").toList,
      (". Please check the symbol and try again.").toList, ?_⟩
    rw [strToList_append, strToList_append]
  · intro s cp pc pcp a2
    rw [hresp]
    exact fun h => AnalyzeResponse.noConfusion h

/-- C1 witness: a failed equity fetch for AAPL produces the 500
server-error response carrying the cause. -/
theorem analyzeEndpoint_primary_failure_witness :
    analyzeEndpoint (some "AAPL") failedQuote failedQuote
      = AnalyzeResponse.serverError
          ("Unable to fetch real market data for " ++ "AAPL" ++ ". Please check the symbol and try again.")
          (some "timeout of 10000ms exceeded") ∧
    httpStatus (analyzeEndpoint (some "AAPL") failedQuote failedQuote) = 500 := by
  obtain ⟨h1, h2, _h3, _h4⟩ :=
    analyzeEndpoint_primary_failure "AAPL" failedQuote failedQuote (by decide) (by decide)
  exact ⟨h1.trans (by decide), h2⟩

/-- C2 counterexample: the serverless handler in `src/api/analyze.js`
serves its hard-coded mock price block (fabricated price 150.25) with
status 200 and no `source` key at all, so a mock payload is returned
without any marker, refuting the claim. -/
theorem apiAnalyze_mock_without_marker :
    (apiAnalyzeHandler "AAPL" (Except.ok none)).status = 200 ∧
    (apiAnalyzeHandler "AAPL" (Except.ok none)).priceBlock = some (mockPriceBlock "AAPL") ∧
    (mockPriceBlock "AAPL").currentPrice = some (150.25 : ℚ) ∧
    (apiAnalyzeHandler "AAPL" (Except.ok none)).source = none := by
  exact ⟨rfl, rfl, rfl, rfl⟩

/-- C2 (amended): the handler in `src/unnamed/part_001` does mark every
response — `source: "mock-fallback"` on the mock path (which serves the
fabricated price 150.25) and `source: "yahoo-finance"` on the real path —
but the handler in `src/api/analyze.js` never attaches a `source` marker,
on its mock path included. -/
theorem mock_marker_spec :
    (∀ symbol price,
      (part001Handler symbol (SettledResult.fulfilled price)).source = some "yahoo-finance") ∧
    (∀ symbol e,
      (part001Handler symbol (SettledResult.rejected e)).source = some "mock-fallback" ∧
      (part001Handler symbol (SettledResult.rejected e)).currentPrice = (150.25 : ℚ)) ∧
    (∀ symbol fetchOutcome, (apiAnalyzeHandler symbol fetchOutcome).source = none) := by
  refine ⟨fun s p => rfl, fun s e => ⟨rfl, rfl⟩, fun s f => ?_⟩
  cases f with
  | error e => rfl
  | ok m => rfl

end Malthus
